import Mathlib

/-!
# WeatherNow (`script.js`): a shallow embedding and its checked properties

The page script is modelled function by function.  The DOM elements the script
writes (`statusEl`, `placeEl`, ..., `dailyContainer`) are the fields of `World`,
together with the list of network requests issued so far and the errors logged
to the console.  An `async` function becomes a function from the world before
the call to its outcome (value or thrown error) and the world after it; the two
`fetch` calls are answered by a `Net` value.

JavaScript numbers carried by the JSON payloads are finite doubles; every finite
double is `mant / 2 ^ scale` for an integer `mant` and a natural `scale`, which
is how `Num` stores them.  `Math.round` and `toFixed` are defined by the
language on the exact value, so they are computed exactly here.  Printing a
number in a template literal gives its exact decimal digits for an integer of
magnitude up to `2 ^ 53`; beyond that, and for non-integers, it gives the
shortest digits that read back as the same double, which together with the
locale formatting of dates is left to the fields of `Host`.
-/

namespace WeatherNow

/-! ## Numbers and host built-ins -/

/-- A finite JavaScript number, the exact value `mant / 2 ^ scale`. -/
structure Num where
  mant : Int
  scale : Nat
  deriving DecidableEq, Repr

/-- The number with integer value `n`. -/
def Num.ofInt (n : Int) : Num := ⟨n, 0⟩

/-- The exact value of a number. -/
def Num.toRat (x : Num) : ℚ := (x.mant : ℚ) / 2 ^ x.scale

/-- Built-ins whose result depends on the browser and its locale. -/
structure Host where
  /-- Number-to-string conversion where it is not the exact decimal digits of an
  integer (non-integers, and integers of magnitude above `2 ^ 53`, which print
  as the shortest digits that read back as the same double). -/
  numberToString : Num → String
  /-- The text `new Date(iso).toLocaleDateString(undefined,
  { weekday:'short', day:'numeric', month:'short' })` for the string `iso`. -/
  toLocaleDateString : String → String

/-- `Math.round(x)`: the integer closest to `x`, a tie going to the larger one. -/
def mathRound (x : Num) : Int :=
  (2 * x.mant + 2 ^ x.scale) / 2 ^ (x.scale + 1)

/-- String conversion of an integer-valued number, as in a template literal:
up to `2 ^ 53` in magnitude every integer is a double of its own and prints as
its decimal digits. -/
def intToString (host : Host) (n : Int) : String :=
  if n.natAbs ≤ 2 ^ 53 then toString n else host.numberToString (Num.ofInt n)

/-- String conversion of a number, as in a template literal. -/
def numberToString (host : Host) (x : Num) : String :=
  if x.mant % 2 ^ x.scale = 0 then intToString host (x.mant / 2 ^ x.scale)
  else host.numberToString x

/-- `Number.prototype.toFixed(f)`. -/
def toFixed (host : Host) (x : Num) (f : Nat) : String :=
  let s := if x.mant < 0 then "-" else ""
  let a : Nat := x.mant.natAbs
  if 10 ^ 21 * 2 ^ x.scale ≤ a then s ++ numberToString host ⟨(a : Int), x.scale⟩
  else
    let n : Nat := (2 * a * 10 ^ f + 2 ^ x.scale) / 2 ^ (x.scale + 1)
    let m : List Char := (toString n).data
    if f = 0 then s ++ String.mk m
    else
      let m := List.replicate (f + 1 - m.length) '0' ++ m
      s ++ String.mk (m.take (m.length - f) ++ '.' :: m.drop (m.length - f))

/-- White space and line terminators: what `String.prototype.trim` strips and
what `\s` matches in a regular expression. -/
def isJsSpace (c : Char) : Bool :=
  let n := c.toNat
  n = 0x09 || n = 0x0A || n = 0x0B || n = 0x0C || n = 0x0D || n = 0x20 ||
  n = 0xA0 || n = 0x1680 || (0x2000 ≤ n && n ≤ 0x200A) || n = 0x2028 ||
  n = 0x2029 || n = 0x202F || n = 0x205F || n = 0x3000 || n = 0xFEFF

/-- `s.trim()`. -/
def jsTrim (s : String) : String :=
  String.mk ((s.data.dropWhile isJsSpace).reverse.dropWhile isJsSpace).reverse

/-- The characters left by `.replace(/,\s*$/, '')`: the leftmost comma that is
followed by white space only up to the end is removed together with that
white space. -/
def dropTrailingComma : List Char → List Char
  | [] => []
  | c :: cs => if c = ',' ∧ cs.all isJsSpace = true then [] else c :: dropTrailingComma cs

/-- `s.replace(/,\s*$/, '')`. -/
def replaceTrailingComma (s : String) : String :=
  String.mk (dropTrailingComma s.data)

/-- Whether a string operand of `||` is truthy: present and non-empty. -/
def truthy : Option String → Bool
  | some s => s ≠ ""
  | none => false

/-- `a || b` on optional strings. -/
def jsOr (a b : Option String) : Option String :=
  if truthy a then a else b

/-! ## Weather codes -/

/-- The `{text, icon}` object returned by `codeToInfo`. -/
structure Info where
  text : String
  icon : String
  deriving DecidableEq, Repr

/-- `codeToInfo(code)` for an integer code. -/
def codeToInfo (code : Int) : Info :=
  if code = 0 then ⟨"Clear sky", "☀️"⟩
  else if code ∈ ([1, 2] : List Int) then ⟨"Mostly clear", "🌤️"⟩
  else if code = 3 then ⟨"Overcast", "☁️"⟩
  else if code ∈ ([45, 48] : List Int) then ⟨"Fog", "🌫️"⟩
  else if code ∈ ([51, 53, 55] : List Int) then ⟨"Drizzle", "🌦️"⟩
  else if code ∈ ([56, 57] : List Int) then ⟨"Freezing drizzle", "🌧️"⟩
  else if code ∈ ([61, 63, 65] : List Int) then ⟨"Rain", "🌧️"⟩
  else if code ∈ ([66, 67] : List Int) then ⟨"Freezing rain", "🌧️"⟩
  else if code ∈ ([71, 73, 75, 77] : List Int) then ⟨"Snow", "❄️"⟩
  else if code ∈ ([80, 81, 82] : List Int) then ⟨"Rain showers", "🌦️"⟩
  else if code ∈ ([85, 86] : List Int) then ⟨"Snow showers", "❄️"⟩
  else if code = 95 then ⟨"Thunderstorm", "⛈️"⟩
  else if code ∈ ([96, 99] : List Int) then ⟨"Thunderstorm w/ hail", "🌩️"⟩
  else ⟨"—", "⛅"⟩

/-- The codes that some rule of `codeToInfo` names. -/
def documentedCodes : List Int :=
  [0, 1, 2, 3, 45, 48, 51, 53, 55, 56, 57, 61, 63, 65, 66, 67, 71, 73, 75, 77,
   80, 81, 82, 85, 86, 95, 96, 99]

/-! ## Payloads, network and page state -/

/-- A value thrown and caught: an `Error` object and its optional message. -/
structure JsError where
  message : Option String
  deriving DecidableEq, Repr

/-- One entry of the geocoding `results` array.  The fields the script guards
with `??` or `||` are optional. -/
structure GeoResult where
  name : String
  latitude : Num
  longitude : Num
  country : Option String
  country_code : Option String
  timezone : Option String
  deriving DecidableEq, Repr

/-- A geocoding response: `res.ok` and the `results` member of its JSON body,
`none` when the member is missing. -/
structure GeoResponse where
  ok : Bool
  results : Option (List GeoResult)
  deriving DecidableEq, Repr

/-- The `current` object of a forecast payload. -/
structure Current where
  temperature_2m : Num
  relative_humidity_2m : Num
  wind_speed_10m : Num
  weather_code : Int
  deriving DecidableEq, Repr

/-- The `daily` object of a forecast payload: four co-indexed arrays. -/
structure Daily where
  time : List String
  weather_code : List Int
  temperature_2m_min : List Num
  temperature_2m_max : List Num
  deriving DecidableEq, Repr

/-- The JSON body of a forecast response. -/
structure Forecast where
  current : Current
  daily : Daily
  timezone : Option String
  deriving DecidableEq, Repr

/-- A forecast response: `res.ok` and its JSON body. -/
structure ForecastResponse where
  ok : Bool
  json : Forecast
  deriving DecidableEq, Repr

/-- A request handed to `fetch`.  The geocoding URL is fixed by the name (with
`count=1`, `language=en`, `format=json`), the forecast URL by the two
coordinates (with `timezone=auto` and the fixed `current` and `daily` lists). -/
inductive Request where
  | geocode (name : String)
  | forecast (latitude longitude : Num)
  deriving DecidableEq, Repr

/-- What the two endpoints answer: `fetch` either rejects with an error or
resolves to a response. -/
structure Net where
  geocoding : String → Except JsError GeoResponse
  forecast : Num → Num → Except JsError ForecastResponse

/-- One `article.day` card of the daily list, by the text of its parts. -/
structure Card where
  /-- Text of `div.dname`. -/
  dname : String
  /-- The `title` attribute of `div.dicon`. -/
  title : String
  /-- Text of `div.dicon`. -/
  dicon : String
  /-- Text of `div.dtemp` before its `strong` child. -/
  dtemp : String
  /-- Text of the `strong` child of `div.dtemp`. -/
  strong : String
  /-- Text of the `span` in `div.dmeta`. -/
  dmeta : String
  deriving DecidableEq, Repr

/-- The whole text of `div.dtemp`. -/
def Card.tempText (c : Card) : String := c.dtemp ++ c.strong

/-- The page elements the script writes, the requests issued so far (oldest
first) and the errors logged to the console. -/
structure World where
  status : String
  place : String
  coords : String
  temp : String
  icon : String
  summary : String
  humidity : String
  wind : String
  time : String
  daily : List Card
  requests : List Request
  console : List JsError
  deriving DecidableEq, Repr

/-- The `{lat, lon}` object handed to `renderCurrent`. -/
structure Coords where
  lat : Num
  lon : Num
  deriving DecidableEq, Repr

/-! ## The functions of `script.js` -/

/-- `showStatus(msg)`: `statusEl.textContent = msg ?? ''`. -/
def showStatus (msg : Option String) (w : World) : World :=
  { w with status := msg.getD "" }

/-- `fmt(n, digits)`: `Number(n).toFixed(digits)`. -/
def fmt (host : Host) (n : Num) (digits : Nat) : String := toFixed host n digits

/-- `weekday(dateStr)`. -/
def weekday (host : Host) (dateStr : String) : String :=
  host.toLocaleDateString (dateStr ++ "T00:00:00")

/-- `geocodeCity(name)`: one request, then the two checks on the response. -/
def geocodeCity (net : Net) (name : String) (w : World) : Except JsError GeoResult × World :=
  let w := { w with requests := w.requests ++ [Request.geocode name] }
  match net.geocoding name with
  | .error e => (.error e, w)
  | .ok res =>
    if !res.ok then (.error ⟨some "Geocoding failed."⟩, w)
    else
      match res.results with
      | none => (.error ⟨some "City not found."⟩, w)
      | some [] => (.error ⟨some "City not found."⟩, w)
      | some (g :: _) => (.ok g, w)

/-- `fetchWeather(lat, lon, tzHint)`: one request, then the status check. -/
def fetchWeather (net : Net) (lat lon : Num) (_tzHint : Option String) (w : World) :
    Except JsError Forecast × World :=
  let w := { w with requests := w.requests ++ [Request.forecast lat lon] }
  match net.forecast lat lon with
  | .error e => (.error e, w)
  | .ok res =>
    if !res.ok then (.error ⟨some "Weather fetch failed."⟩, w)
    else (.ok res.json, w)

/-- `renderCurrent(place, coords, current, tz)`; `now` is the text of
`new Date().toLocaleString()` at the moment of the call. -/
def renderCurrent (host : Host) (now : String) (place : String) (coords : Coords)
    (current : Current) (tz : String) (w : World) : World :=
  let w := { w with place := place }
  let w := { w with
    coords := "Lat " ++ fmt host coords.lat 2 ++ ", Lon " ++ fmt host coords.lon 2 ++ " · " ++ tz }
  let info := codeToInfo current.weather_code
  let w := { w with temp := intToString host (mathRound current.temperature_2m) ++ "°C" }
  let w := { w with icon := info.icon }
  let w := { w with summary := info.text }
  let w := { w with
    humidity := "Humidity: " ++ numberToString host current.relative_humidity_2m ++ "%" }
  let w := { w with wind := "Wind: " ++ fmt host current.wind_speed_10m 0 ++ " km/h" }
  { w with time := "As of " ++ now }

/-- The text of `Math.round(xs[i])` in a template literal; an index past the end
reads `undefined`, which rounds to `NaN`. -/
def roundText (host : Host) (xs : List Num) (i : Nat) : String :=
  match xs[i]? with
  | some x => intToString host (mathRound x)
  | none => "NaN"

/-- The `info` of iteration `i`: `codeToInfo(weather_code[i])`; an index past
the end reads `undefined`, which no rule matches. -/
def dayInfo (codes : List Int) (i : Nat) : Info :=
  match codes[i]? with
  | some c => codeToInfo c
  | none => ⟨"—", "⛅"⟩

/-- The card built by iteration `i` of the loop in `renderDaily`. -/
def dayCard (host : Host) (daily : Daily) (i : Nat) : Card :=
  let info := dayInfo daily.weather_code i
  { dname := weekday host (daily.time[i]?.getD "undefined")
    title := info.text
    dicon := info.icon
    dtemp := roundText host daily.temperature_2m_min i ++ "°C — "
    strong := roundText host daily.temperature_2m_max i ++ "°C"
    dmeta := info.text }

/-- `renderDaily(daily)`: empty the container, then append one card per index
of `time`. -/
def renderDaily (host : Host) (daily : Daily) (w : World) : World :=
  let w := { w with daily := [] }
  (List.range daily.time.length).foldl
    (fun w i => { w with daily := w.daily ++ [dayCard host daily i] }) w

/-- The first argument of `renderCurrent` in `loadCityWeather`:
the name and country joined by a comma, with a trailing comma removed. -/
def placeLabel (g : GeoResult) : String :=
  replaceTrailingComma
    (g.name ++ ", " ++ ((g.country_code.orElse fun _ => g.country).getD ""))

/-- The last argument of `renderCurrent` in `loadCityWeather`:
`g.timezone || w.timezone || 'local'`. -/
def timezoneLabel (g : GeoResult) (fc : Forecast) : String :=
  (jsOr (jsOr g.timezone fc.timezone) (some "local")).getD "local"

/-- The `try` block of `loadCityWeather`. -/
def loadCityWeatherTry (host : Host) (net : Net) (now : String) (name : String)
    (w : World) : Except JsError Unit × World :=
  let w := showStatus (some "Loading…") w
  match geocodeCity net name w with
  | (.error e, w) => (.error e, w)
  | (.ok g, w) =>
    match fetchWeather net g.latitude g.longitude g.timezone w with
    | (.error e, w) => (.error e, w)
    | (.ok fc, w) =>
      let w := renderCurrent host now (placeLabel g) ⟨g.latitude, g.longitude⟩ fc.current
        (timezoneLabel g fc) w
      let w := renderDaily host fc.daily w
      (.ok (), showStatus (some ("Showing weather for “" ++ g.name ++ "”")) w)

/-- The `catch` block of `loadCityWeather`. -/
def loadCityWeatherCatch (err : JsError) (w : World) : World :=
  let w := { w with console := w.console ++ [err] }
  let w := showStatus
    (some ("⚠️ " ++ (jsOr err.message (some "Something went wrong.")).getD "")) w
  let w := { w with place := "—" }
  let w := { w with coords := "—" }
  let w := { w with temp := "—" }
  let w := { w with summary := "—" }
  { w with daily := [] }

/-- `loadCityWeather(name)`. -/
def loadCityWeather (host : Host) (net : Net) (now : String) (name : String)
    (w : World) : World :=
  match loadCityWeatherTry host net now name w with
  | (.ok _, w) => w
  | (.error err, w) => loadCityWeatherCatch err w

/-- The `submit` listener of the search form; `value` is `cityInput.value`. -/
def submitHandler (host : Host) (net : Net) (now : String) (value : String)
    (w : World) : World :=
  let q := jsTrim ((jsOr (some value) (some "")).getD "")
  if q ≠ "" then loadCityWeather host net now q w else w

/-- The `click` listener of a chip; `city` is its `data-city` value. -/
def chipClick (host : Host) (net : Net) (now : String) (city : String)
    (w : World) : World :=
  loadCityWeather host net now city w

/-- The `DOMContentLoaded` listener. -/
def domContentLoaded (host : Host) (net : Net) (now : String) (w : World) : World :=
  loadCityWeather host net now "Kolkata" w

/-! ## Concrete values used by the worked examples -/

/-- A host that prints non-decimal numbers as `?` and dates as their ISO text. -/
def demoHost : Host := ⟨fun _ => "?", fun iso => iso⟩

/-- An empty page: every element blank, nothing requested, nothing logged. -/
def blankWorld : World :=
  { status := "", place := "", coords := "", temp := "", icon := "", summary := "",
    humidity := "", wind := "", time := "", daily := [], requests := [], console := [] }

/-- The daily payload of the worked example: codes 61 and 71, minima 10 and -2,
maxima 15 and 1. -/
def demoDaily : Daily :=
  { time := ["2024-07-01", "2024-07-02"]
    weather_code := [61, 71]
    temperature_2m_min := [Num.ofInt 10, Num.ofInt (-2)]
    temperature_2m_max := [Num.ofInt 15, Num.ofInt 1] }

/-- A one-day payload with half degrees: rain, minimum -2.5, maximum 10.5. -/
def halfDaily : Daily :=
  { time := ["2024-07-03"]
    weather_code := [61]
    temperature_2m_min := [⟨-5, 1⟩]
    temperature_2m_max := [⟨21, 1⟩] }

/-- A first geocoding result for the query `Kolkata`: latitude 22.5, longitude
88.375. -/
def kolkata : GeoResult :=
  { name := "Kolkata", latitude := ⟨45, 1⟩, longitude := ⟨707, 3⟩,
    country := some "India", country_code := some "IN",
    timezone := some "Asia/Kolkata" }

/-- A forecast payload with clear sky: 30.5 degrees, 80 percent humidity, wind
12.5 km/h. -/
def demoForecast : Forecast :=
  { current := ⟨⟨61, 1⟩, Num.ofInt 80, ⟨25, 1⟩, 0⟩
    daily := demoDaily
    timezone := some "Asia/Kolkata" }

/-- Endpoints that know one city: `Kolkata` has one result, every other name has
none, and every forecast request succeeds. -/
def demoNet : Net :=
  { geocoding := fun name =>
      if name = "Kolkata" then .ok ⟨true, some [kolkata]⟩ else .ok ⟨true, some []⟩
    forecast := fun _ _ => .ok ⟨true, demoForecast⟩ }

/-- Endpoints whose forecast service answers with a non-success status. -/
def forecastDownNet : Net :=
  { geocoding := fun _ => .ok ⟨true, some [kolkata]⟩
    forecast := fun _ _ => .ok ⟨false, demoForecast⟩ }

/-- The page after the `catch` block has run: the four blanked fields hold the
dash and the daily list is empty. -/
def Blanked (w : World) : Prop :=
  w.place = "—" ∧ w.coords = "—" ∧ w.temp = "—" ∧ w.summary = "—" ∧ w.daily = []

instance (w : World) : Decidable (Blanked w) := by
  unfold Blanked
  infer_instance

/-- The text shown for a caught error: its message, or the generic text when the
message is missing or empty. -/
def shownMessage (e : JsError) : String :=
  match e.message with
  | some m => if m = "" then "Something went wrong." else m
  | none => "Something went wrong."

/-- A query fit for `geocodeCity`: non-empty, and neither its first nor its
last character is white space. -/
def isTrimmed (s : String) : Bool :=
  match s.data.head?, s.data.getLast? with
  | some a, some b => !isJsSpace a && !isJsSpace b
  | _, _ => false

/-- The country text joined to the name: the country code, else the country
name, else the empty string. -/
def countryText (g : GeoResult) : String :=
  match g.country_code, g.country with
  | some c, _ => c
  | none, some c => c
  | none, none => ""

/-- Two pages agree on every element that `renderCurrent` writes except the
last-updated time, and on the status line and the daily list. -/
def SameExceptTime (a b : World) : Prop :=
  a.place = b.place ∧ a.coords = b.coords ∧ a.temp = b.temp ∧ a.icon = b.icon ∧
  a.summary = b.summary ∧ a.humidity = b.humidity ∧ a.wind = b.wind ∧
  a.daily = b.daily ∧ a.status = b.status

instance (a b : World) : Decidable (SameExceptTime a b) := by
  unfold SameExceptTime
  infer_instance

/-- Two pages agree on every element that `renderCurrent` writes. -/
def SameCurrent (a b : World) : Prop :=
  a.place = b.place ∧ a.coords = b.coords ∧ a.temp = b.temp ∧ a.icon = b.icon ∧
  a.summary = b.summary ∧ a.humidity = b.humidity ∧ a.wind = b.wind ∧
  a.time = b.time

instance (a b : World) : Decidable (SameCurrent a b) := by
  unfold SameCurrent
  infer_instance

/-- The page after a search for `Kolkata` on an empty page. -/
def afterKolkata : World :=
  loadCityWeather demoHost demoNet "10:00" "Kolkata" blankWorld

/-- The page after a further search, five minutes later, for a name that has no
geocoding result. -/
def afterNowhere : World :=
  loadCityWeather demoHost demoNet "10:05" "Nowhereville123" afterKolkata

/-! ## Auxiliary facts -/

/-- `mathRound` is rounding to the nearest integer with ties going up, on the
exact value of the number. -/
theorem mathRound_eq_floor (x : Num) :
    mathRound x = ⌊x.toRat + 1 / 2⌋ := by
  unfold Num.toRat
  have h : (x.mant : ℚ) / 2 ^ x.scale + 1 / 2
      = ((2 * x.mant + 2 ^ x.scale : ℤ) : ℚ) / ((2 ^ (x.scale + 1) : ℕ) : ℚ) := by
    push_cast
    field_simp
    ring
  rw [h, Rat.floor_intCast_div_natCast]
  simp [mathRound]


theorem foldl_append_card (f : Nat → Card) (l : List Nat) (w : World) :
    l.foldl (fun w i => { w with daily := w.daily ++ [f i] }) w
      = { w with daily := w.daily ++ l.map f } := by
  induction l generalizing w with
  | nil => simp
  | cons i l ih => simp [ih]

theorem renderDaily_eq (host : Host) (daily : Daily) (w : World) :
    renderDaily host daily w
      = { w with daily := (List.range daily.time.length).map (dayCard host daily) } := by
  simp [renderDaily, foldl_append_card]

/-! ## The weather-code table -/

/-- C1: `codeToInfo` agrees with the documented table on every integer code: each
documented code gives its documented text and icon, and every other integer
gives the placeholder `—` with the partly-cloudy glyph. -/
theorem codeToInfo_table :
    codeToInfo 0 = ⟨"Clear sky", "☀️"⟩ ∧
    (∀ c ∈ ([1, 2] : List Int), codeToInfo c = ⟨"Mostly clear", "🌤️"⟩) ∧
    codeToInfo 3 = ⟨"Overcast", "☁️"⟩ ∧
    (∀ c ∈ ([45, 48] : List Int), codeToInfo c = ⟨"Fog", "🌫️"⟩) ∧
    (∀ c ∈ ([51, 53, 55] : List Int), codeToInfo c = ⟨"Drizzle", "🌦️"⟩) ∧
    (∀ c ∈ ([56, 57] : List Int), codeToInfo c = ⟨"Freezing drizzle", "🌧️"⟩) ∧
    (∀ c ∈ ([61, 63, 65] : List Int), codeToInfo c = ⟨"Rain", "🌧️"⟩) ∧
    (∀ c ∈ ([66, 67] : List Int), codeToInfo c = ⟨"Freezing rain", "🌧️"⟩) ∧
    (∀ c ∈ ([71, 73, 75, 77] : List Int), codeToInfo c = ⟨"Snow", "❄️"⟩) ∧
    (∀ c ∈ ([80, 81, 82] : List Int), codeToInfo c = ⟨"Rain showers", "🌦️"⟩) ∧
    (∀ c ∈ ([85, 86] : List Int), codeToInfo c = ⟨"Snow showers", "❄️"⟩) ∧
    codeToInfo 95 = ⟨"Thunderstorm", "⛈️"⟩ ∧
    (∀ c ∈ ([96, 99] : List Int), codeToInfo c = ⟨"Thunderstorm w/ hail", "🌩️"⟩) ∧
    (∀ c : Int, c ∉ documentedCodes → codeToInfo c = ⟨"—", "⛅"⟩) := by
  refine ⟨by decide, by decide, by decide, by decide, by decide, by decide, by decide,
    by decide, by decide, by decide, by decide, by decide, by decide, ?_⟩
  intro c hc
  simp only [documentedCodes, List.mem_cons, List.mem_singleton, not_or] at hc
  obtain ⟨h0, h1, h2, h3, h45, h48, h51, h53, h55, h56, h57, h61, h63, h65, h66, h67,
    h71, h73, h75, h77, h80, h81, h82, h85, h86, h95, h96, h99, -⟩ := hc
  simp [codeToInfo, *]

/-- The table at one code of each kind: a gap, a negative code, a code above 99. -/
theorem codeToInfo_table_witness :
    (60 : Int) ∉ documentedCodes ∧ codeToInfo 60 = ⟨"—", "⛅"⟩ ∧
    codeToInfo (-1) = ⟨"—", "⛅"⟩ ∧ codeToInfo 100 = ⟨"—", "⛅"⟩ :=
  ⟨by decide, codeToInfo_table.2.2.2.2.2.2.2.2.2.2.2.2.2 60 (by decide),
    codeToInfo_table.2.2.2.2.2.2.2.2.2.2.2.2.2 (-1) (by decide),
    codeToInfo_table.2.2.2.2.2.2.2.2.2.2.2.2.2 100 (by decide)⟩

/-! ## Geocoding -/

/-- C2: for every geocoding response, `geocodeCity` throws `Geocoding failed.`
exactly when the status is not successful, throws `City not found.` exactly when
the status is successful and the results are missing or empty, and otherwise
returns the first entry of the results. -/
theorem geocodeCity_outcome (net : Net) (name : String) (w : World) (r : GeoResponse)
    (h : net.geocoding name = .ok r) :
    ((geocodeCity net name w).1 = .error ⟨some "Geocoding failed."⟩ ↔ r.ok = false) ∧
    ((geocodeCity net name w).1 = .error ⟨some "City not found."⟩ ↔
      (r.ok = true ∧ (r.results = none ∨ r.results = some []))) ∧
    (∀ g rest, r.ok = true → r.results = some (g :: rest) →
      (geocodeCity net name w).1 = .ok g) := by
  obtain ⟨ok, results⟩ := r
  cases ok <;> rcases results with _ | _ | ⟨g, rest⟩ <;> simp [geocodeCity, h]

/-- The three outcomes of `geocodeCity` on concrete responses. -/
theorem geocodeCity_outcome_witness :
    (geocodeCity ⟨fun _ => .ok ⟨true, some []⟩, fun _ _ => .error ⟨none⟩⟩
        "Nowhereville123" blankWorld).1 = .error ⟨some "City not found."⟩ :=
  (geocodeCity_outcome ⟨fun _ => .ok ⟨true, some []⟩, fun _ _ => .error ⟨none⟩⟩
    "Nowhereville123" blankWorld ⟨true, some []⟩ rfl).2.1.mpr ⟨rfl, Or.inr rfl⟩

/-! ## Rendering -/

/-- C10: `renderCurrent` is idempotent apart from the timestamp: a second call
with the same place, coordinates, conditions and timezone changes no field
other than the last-updated time. -/
theorem renderCurrent_idempotent (host : Host) (now₁ now₂ place : String)
    (coords : Coords) (current : Current) (tz : String) (w : World) :
    SameExceptTime
      (renderCurrent host now₂ place coords current tz
        (renderCurrent host now₁ place coords current tz w))
      (renderCurrent host now₁ place coords current tz w) ∧
    (renderCurrent host now₂ place coords current tz
        (renderCurrent host now₁ place coords current tz w)).time = "As of " ++ now₂ :=
  ⟨⟨rfl, rfl, rfl, rfl, rfl, rfl, rfl, rfl, rfl⟩, rfl⟩

/-- C6: for a daily series whose four arrays have the same length `N`, and
whatever the daily list held before, `renderDaily` leaves exactly `N` cards in
the order of the arrays; card `i` carries the date label of `time[i]`, the icon
and text of `codeToInfo(weather_code[i])` and the temperature text
`round(min[i])°C — round(max[i])°C`, where `round(x)` is the integer
`⌊x + 1/2⌋`, printed as its decimal digits up to `2 ^ 53` in magnitude and by
the browser's number printing beyond.  Codes 61, 71 with minima 10, -2 and
maxima 15, 1 give `Rain`, `10°C — 15°C` and then `Snow`, `-2°C — 1°C`. -/
theorem renderDaily_cards (host : Host) (daily : Daily) (w : World)
    (hcode : daily.weather_code.length = daily.time.length)
    (hmin : daily.temperature_2m_min.length = daily.time.length)
    (hmax : daily.temperature_2m_max.length = daily.time.length) :
    (renderDaily host daily w).daily.length = daily.time.length ∧
    (∀ i, i < daily.time.length → ∃ t c lo hi,
      daily.time[i]? = some t ∧ daily.weather_code[i]? = some c ∧
      daily.temperature_2m_min[i]? = some lo ∧ daily.temperature_2m_max[i]? = some hi ∧
      (renderDaily host daily w).daily[i]? = some
        { dname := host.toLocaleDateString (t ++ "T00:00:00")
          title := (codeToInfo c).text
          dicon := (codeToInfo c).icon
          dtemp :=
            (if ⌊lo.toRat + 1 / 2⌋.natAbs ≤ 2 ^ 53 then toString ⌊lo.toRat + 1 / 2⌋
              else host.numberToString (Num.ofInt ⌊lo.toRat + 1 / 2⌋)) ++ "°C — "
          strong :=
            (if ⌊hi.toRat + 1 / 2⌋.natAbs ≤ 2 ^ 53 then toString ⌊hi.toRat + 1 / 2⌋
              else host.numberToString (Num.ofInt ⌊hi.toRat + 1 / 2⌋)) ++ "°C"
          dmeta := (codeToInfo c).text } ∧
      (⌊lo.toRat + 1 / 2⌋.natAbs ≤ 2 ^ 53 → ⌊hi.toRat + 1 / 2⌋.natAbs ≤ 2 ^ 53 →
        ((renderDaily host daily w).daily[i]?.map Card.tempText) = some
          (toString ⌊lo.toRat + 1 / 2⌋ ++ "°C — " ++ toString ⌊hi.toRat + 1 / 2⌋
            ++ "°C"))) ∧
    (∀ t₀ t₁ : String,
      (renderDaily host ⟨[t₀, t₁], [61, 71], [Num.ofInt 10, Num.ofInt (-2)],
          [Num.ofInt 15, Num.ofInt 1]⟩ w).daily.map (fun c => (c.dmeta, c.tempText))
        = [("Rain", "10°C — 15°C"), ("Snow", "-2°C — 1°C")]) := by
  refine ⟨by simp [renderDaily_eq], ?_, ?_⟩
  · intro i hi
    have h1 : i < daily.weather_code.length := by omega
    have h2 : i < daily.temperature_2m_min.length := by omega
    have h3 : i < daily.temperature_2m_max.length := by omega
    have hcard : (renderDaily host daily w).daily[i]? = some
        { dname := host.toLocaleDateString (daily.time[i] ++ "T00:00:00")
          title := (codeToInfo daily.weather_code[i]).text
          dicon := (codeToInfo daily.weather_code[i]).icon
          dtemp := intToString host (mathRound daily.temperature_2m_min[i]) ++ "°C — "
          strong := intToString host (mathRound daily.temperature_2m_max[i]) ++ "°C"
          dmeta := (codeToInfo daily.weather_code[i]).text } := by
      simp [renderDaily_eq, hi, dayCard, dayInfo, roundText, h1, h2, h3, weekday]
    refine ⟨daily.time[i], daily.weather_code[i], daily.temperature_2m_min[i],
      daily.temperature_2m_max[i], ?_, ?_, ?_, ?_, ?_, ?_⟩
    · simp [hi]
    · simp [h1]
    · simp [h2]
    · simp [h3]
    · rw [hcard, mathRound_eq_floor, mathRound_eq_floor]
      rfl
    · intro hlo hhi
      rw [hcard, mathRound_eq_floor, mathRound_eq_floor]
      simp only [Option.map_some', Card.tempText, intToString, if_pos hlo, if_pos hhi,
        String.append_assoc]
  · intro t₀ t₁
    simp [renderDaily_eq, List.range_succ, dayCard, dayInfo, roundText, Card.tempText,
      intToString, mathRound, Num.ofInt]
    decide

/-- A day with minimum -2.5 and maximum 10.5 shows `-2°C — 11°C`. -/
theorem renderDaily_cards_witness :
    (renderDaily demoHost halfDaily blankWorld).daily.length = 1 ∧
    (renderDaily demoHost halfDaily blankWorld).daily[0]?.map Card.tempText
      = some "-2°C — 11°C" := by
  have h := renderDaily_cards demoHost halfDaily blankWorld rfl rfl rfl
  refine ⟨h.1, ?_⟩
  obtain ⟨t, c, lo, hi, -, -, hlo, hhi, -, htext⟩ := h.2.1 0 (by decide)
  simp [halfDaily] at hlo hhi
  subst hlo hhi
  rw [← mathRound_eq_floor, ← mathRound_eq_floor] at htext
  rw [htext (by decide) (by decide)]
  decide

/-! ## The search as a whole -/

/-- C3: a forecast request is issued only after geocoding has succeeded.  A run
of `loadCityWeather` adds exactly the geocoding request when geocoding is
rejected, answers with a non-success status or has no results, and adds the
geocoding request followed by exactly one forecast request, for the latitude
and longitude of the first result, when geocoding succeeds. -/
theorem forecast_only_after_geocoding (host : Host) (net : Net) (now name : String)
    (w : World) :
    (∀ e, net.geocoding name = .error e →
      (loadCityWeather host net now name w).requests
        = w.requests ++ [Request.geocode name]) ∧
    (∀ r, net.geocoding name = .ok r →
      (r.ok = false ∨ r.results = none ∨ r.results = some []) →
      (loadCityWeather host net now name w).requests
        = w.requests ++ [Request.geocode name]) ∧
    (∀ r g rest, net.geocoding name = .ok r → r.ok = true →
      r.results = some (g :: rest) →
      (loadCityWeather host net now name w).requests
        = w.requests ++ [Request.geocode name, Request.forecast g.latitude g.longitude]) := by
  refine ⟨?_, ?_, ?_⟩
  · intro e he
    simp [loadCityWeather, loadCityWeatherTry, geocodeCity, he, loadCityWeatherCatch,
      showStatus]
  · rintro ⟨ok, results⟩ hr hbad
    cases ok <;> rcases results with _ | _ | ⟨g, rest⟩ <;>
      simp_all [loadCityWeather, loadCityWeatherTry, geocodeCity, loadCityWeatherCatch,
        showStatus]
  · rintro ⟨ok, results⟩ g rest hr hok hres
    simp only at hok hres
    subst hok hres
    cases hf : net.forecast g.latitude g.longitude with
    | error e =>
      simp [loadCityWeather, loadCityWeatherTry, geocodeCity, hr, fetchWeather, hf,
        loadCityWeatherCatch, showStatus]
    | ok fr =>
      cases hfok : fr.ok <;>
        simp [loadCityWeather, loadCityWeatherTry, geocodeCity, hr, fetchWeather, hf, hfok,
          loadCityWeatherCatch, showStatus, renderDaily_eq, renderCurrent]

/-- A successful geocoding lookup is followed by one forecast request. -/
theorem forecast_only_after_geocoding_witness :
    (loadCityWeather demoHost demoNet "10:00" "Kolkata" blankWorld).requests
      = [Request.geocode "Kolkata", Request.forecast ⟨45, 1⟩ ⟨707, 3⟩] ∧
    (loadCityWeather demoHost demoNet "10:00" "Nowhereville123" blankWorld).requests
      = [Request.geocode "Nowhereville123"] :=
  ⟨(forecast_only_after_geocoding demoHost demoNet "10:00" "Kolkata" blankWorld).2.2
      ⟨true, some [kolkata]⟩ kolkata [] rfl rfl rfl,
   (forecast_only_after_geocoding demoHost demoNet "10:00" "Nowhereville123"
      blankWorld).2.1 ⟨true, some []⟩ rfl (Or.inr (Or.inr rfl))⟩

theorem catch_status (e : JsError) (w : World) :
    (loadCityWeatherCatch e w).status = "⚠️ " ++ shownMessage e := by
  obtain ⟨_ | m⟩ := e
  · simp [loadCityWeatherCatch, showStatus, shownMessage, jsOr, truthy]
  · by_cases hm : m = "" <;>
      simp [loadCityWeatherCatch, showStatus, shownMessage, jsOr, truthy, hm]

theorem catch_blanked (e : JsError) (w : World) : Blanked (loadCityWeatherCatch e w) := by
  simp [Blanked, loadCityWeatherCatch, showStatus]

/-- C4: whatever the page showed before, a search that fails ends with the
status line `⚠️ ` followed by the error message (or `Something went wrong.` when
the error has no message), with place, coordinates, temperature and summary
equal to the dash and with the daily list empty.  The three failures give the
messages `Geocoding failed.`, `City not found.` and `Weather fetch failed.`;
after a forecast non-success status the page is the one the `catch` block makes
from the page as it stood when the request was sent, so neither `renderCurrent`
nor `renderDaily` has written anything. -/
theorem loadCityWeather_failure (host : Host) (net : Net) (now name : String)
    (w : World) :
    (∀ e, (loadCityWeatherTry host net now name w).1 = .error e →
      (loadCityWeather host net now name w).status = "⚠️ " ++ shownMessage e ∧
      Blanked (loadCityWeather host net now name w)) ∧
    (∀ r, net.geocoding name = .ok r → r.ok = false →
      (loadCityWeather host net now name w).status = "⚠️ Geocoding failed." ∧
      Blanked (loadCityWeather host net now name w)) ∧
    (∀ r, net.geocoding name = .ok r → r.ok = true →
      (r.results = none ∨ r.results = some []) →
      (loadCityWeather host net now name w).status = "⚠️ City not found." ∧
      Blanked (loadCityWeather host net now name w)) ∧
    (∀ r g rest fr, net.geocoding name = .ok r → r.ok = true →
      r.results = some (g :: rest) →
      net.forecast g.latitude g.longitude = .ok fr → fr.ok = false →
      (loadCityWeather host net now name w).status = "⚠️ Weather fetch failed." ∧
      Blanked (loadCityWeather host net now name w) ∧
      loadCityWeather host net now name w
        = loadCityWeatherCatch ⟨some "Weather fetch failed."⟩
            { w with
              status := "Loading…"
              requests := w.requests ++
                [Request.geocode name, Request.forecast g.latitude g.longitude] } ∧
      (loadCityWeather host net now name w).icon = w.icon ∧
      (loadCityWeather host net now name w).humidity = w.humidity ∧
      (loadCityWeather host net now name w).wind = w.wind ∧
      (loadCityWeather host net now name w).time = w.time) := by
  refine ⟨?_, ?_, ?_, ?_⟩
  · intro e he
    unfold loadCityWeather
    rcases hrun : loadCityWeatherTry host net now name w with ⟨_ | _, w1⟩
    · rw [hrun] at he
      cases he
      exact ⟨catch_status _ _, catch_blanked _ _⟩
    · rw [hrun] at he
      cases he
  · intro r hr hok
    have h : loadCityWeather host net now name w
        = loadCityWeatherCatch ⟨some "Geocoding failed."⟩
            { w with status := "Loading…"
                     requests := w.requests ++ [Request.geocode name] } := by
      simp [loadCityWeather, loadCityWeatherTry, geocodeCity, hr, hok, showStatus]
    rw [h]
    exact ⟨by rw [catch_status]; decide, catch_blanked _ _⟩
  · rintro ⟨ok, results⟩ hr hok hres
    simp only at hok hres
    subst hok
    have h : loadCityWeather host net now name w
        = loadCityWeatherCatch ⟨some "City not found."⟩
            { w with status := "Loading…"
                     requests := w.requests ++ [Request.geocode name] } := by
      rcases hres with rfl | rfl <;>
        simp [loadCityWeather, loadCityWeatherTry, geocodeCity, hr, showStatus]
    rw [h]
    exact ⟨by rw [catch_status]; decide, catch_blanked _ _⟩
  · rintro ⟨ok, results⟩ g rest fr hr hok hres hf hfok
    simp only at hok hres
    subst hok hres
    have h : loadCityWeather host net now name w
        = loadCityWeatherCatch ⟨some "Weather fetch failed."⟩
            { w with
              status := "Loading…"
              requests := w.requests ++
                [Request.geocode name, Request.forecast g.latitude g.longitude] } := by
      simp [loadCityWeather, loadCityWeatherTry, geocodeCity, hr, fetchWeather, hf, hfok,
        showStatus]
    rw [h]
    refine ⟨by rw [catch_status]; decide, catch_blanked _ _, rfl, ?_, ?_, ?_, ?_⟩ <;>
      simp [loadCityWeatherCatch, showStatus]

/-- A forecast failure over a page that shows an earlier result. -/
theorem loadCityWeather_failure_witness :
    (loadCityWeather demoHost forecastDownNet "10:00" "Kolkata" blankWorld).status
      = "⚠️ Weather fetch failed." ∧
    Blanked (loadCityWeather demoHost forecastDownNet "10:00" "Kolkata" blankWorld) :=
  let h := (loadCityWeather_failure demoHost forecastDownNet "10:00" "Kolkata"
    blankWorld).2.2.2 ⟨true, some [kolkata]⟩ kolkata [] ⟨false, demoForecast⟩
    rfl rfl rfl rfl rfl
  ⟨h.1, h.2.1⟩

/-- C7: when geocoding succeeds with first result `g` and the forecast request
succeeds with payload `fc`, `loadCityWeather` ends in the success state: the
current-conditions fields are the ones `renderCurrent` writes from `fc.current`
(summary and icon are those of `codeToInfo(fc.current.weather_code)`, so code 0
shows `Clear sky` with the clear-sky glyph), the daily list is the one
`renderDaily` builds from `fc.daily`, and the status line is
`Showing weather for “<g.name>”`. -/
theorem loadCityWeather_success (host : Host) (net : Net) (now name : String)
    (w : World) (r : GeoResponse) (g : GeoResult) (rest : List GeoResult)
    (fr : ForecastResponse)
    (hr : net.geocoding name = .ok r) (hok : r.ok = true)
    (hres : r.results = some (g :: rest))
    (hf : net.forecast g.latitude g.longitude = .ok fr) (hfok : fr.ok = true) :
    (loadCityWeatherTry host net now name w).1 = .ok () ∧
    (loadCityWeather host net now name w).status
      = "Showing weather for “" ++ g.name ++ "”" ∧
    SameCurrent (loadCityWeather host net now name w)
      (renderCurrent host now (placeLabel g) ⟨g.latitude, g.longitude⟩ fr.json.current
        (timezoneLabel g fr.json) w) ∧
    (loadCityWeather host net now name w).summary
      = (codeToInfo fr.json.current.weather_code).text ∧
    (loadCityWeather host net now name w).icon
      = (codeToInfo fr.json.current.weather_code).icon ∧
    (loadCityWeather host net now name w).daily
      = (renderDaily host fr.json.daily w).daily ∧
    (fr.json.current.weather_code = 0 →
      (loadCityWeather host net now name w).summary = "Clear sky" ∧
      (loadCityWeather host net now name w).icon = "☀️") := by
  obtain ⟨ok, results⟩ := r
  simp only at hok hres
  subst hok hres
  have htry : loadCityWeatherTry host net now name w
      = (.ok (), showStatus (some ("Showing weather for “" ++ g.name ++ "”"))
          (renderDaily host fr.json.daily
            (renderCurrent host now (placeLabel g) ⟨g.latitude, g.longitude⟩
              fr.json.current (timezoneLabel g fr.json)
              { w with
                status := "Loading…"
                requests := w.requests ++
                  [Request.geocode name, Request.forecast g.latitude g.longitude] }))) := by
    simp [loadCityWeatherTry, geocodeCity, hr, fetchWeather, hf, hfok, showStatus]
  have hfinal : loadCityWeather host net now name w
      = showStatus (some ("Showing weather for “" ++ g.name ++ "”"))
          (renderDaily host fr.json.daily
            (renderCurrent host now (placeLabel g) ⟨g.latitude, g.longitude⟩
              fr.json.current (timezoneLabel g fr.json)
              { w with
                status := "Loading…"
                requests := w.requests ++
                  [Request.geocode name, Request.forecast g.latitude g.longitude] })) := by
    simp [loadCityWeather, htry]
  rw [hfinal]
  refine ⟨by rw [htry], ?_, ?_, ?_, ?_, ?_, ?_⟩
  · simp [showStatus, renderDaily_eq, renderCurrent]
  · simp [SameCurrent, showStatus, renderDaily_eq, renderCurrent]
  · simp [showStatus, renderDaily_eq, renderCurrent]
  · simp [showStatus, renderDaily_eq, renderCurrent]
  · simp [showStatus, renderDaily_eq, renderCurrent]
  · intro h0
    simp [showStatus, renderDaily_eq, renderCurrent, h0, codeToInfo]

/-- The query `Kolkata` answered with clear sky. -/
theorem loadCityWeather_success_witness :
    (loadCityWeather demoHost demoNet "10:00" "Kolkata" blankWorld).status
      = "Showing weather for “Kolkata”" ∧
    (loadCityWeather demoHost demoNet "10:00" "Kolkata" blankWorld).summary
      = "Clear sky" ∧
    (loadCityWeather demoHost demoNet "10:00" "Kolkata" blankWorld).icon = "☀️" :=
  let h := loadCityWeather_success demoHost demoNet "10:00" "Kolkata" blankWorld
    ⟨true, some [kolkata]⟩ kolkata [] ⟨true, demoForecast⟩ rfl rfl rfl rfl rfl
  ⟨h.2.1, (h.2.2.2.2.2.2 rfl).1, (h.2.2.2.2.2.2 rfl).2⟩

/-- C5 (the script at a failing input): a search for `Kolkata` succeeds, then a
search for `Nowhereville123` finds nothing.  The page then shows the error
status and the dash in the four blanked fields, while icon, humidity, wind and
last-updated time still show what the first search wrote. -/
theorem stale_fields_after_error :
    afterKolkata.status = "Showing weather for “Kolkata”" ∧
    afterNowhere.status = "⚠️ City not found." ∧
    afterNowhere.place = "—" ∧ afterNowhere.coords = "—" ∧ afterNowhere.temp = "—" ∧
    afterNowhere.summary = "—" ∧ afterNowhere.daily = [] ∧
    afterNowhere.icon = "☀️" ∧ afterNowhere.humidity = "Humidity: 80%" ∧
    afterNowhere.wind = "Wind: 13 km/h" ∧ afterNowhere.time = "As of 10:00" := by
  decide

/-! ## The place label -/

theorem comma_not_space : isJsSpace ',' = false := by decide

theorem dropTrailingComma_append (xs ys : List Char)
    (h : ∃ c ∈ ys, isJsSpace c = false) :
    dropTrailingComma (xs ++ ys) = xs ++ dropTrailingComma ys := by
  induction xs with
  | nil => rfl
  | cons x xs ih =>
    obtain ⟨c, hc, hsp⟩ := h
    have hall : ¬ ((xs ++ ys).all isJsSpace = true) := by
      intro hall
      rw [List.all_eq_true] at hall
      have := hall c (List.mem_append_right _ hc)
      simp [hsp] at this
    rw [List.cons_append, dropTrailingComma, if_neg (fun hx => hall hx.2), ih]
    rfl

theorem dropTrailingComma_of_no_match (ys : List Char)
    (h : ∀ pre ws, ys = pre ++ ',' :: ws → ∃ c ∈ ws, isJsSpace c = false) :
    dropTrailingComma ys = ys := by
  induction ys with
  | nil => rfl
  | cons y ys ih =>
    have hno : ¬ (y = ',' ∧ ys.all isJsSpace = true) := by
      rintro ⟨rfl, hall⟩
      obtain ⟨c, hc, hsp⟩ := h [] ys rfl
      rw [List.all_eq_true] at hall
      have := hall c hc
      simp [hsp] at this
    have ih2 : dropTrailingComma ys = ys := by
      apply ih
      intro pre ws hys
      exact h (y :: pre) ws (by simp [hys])
    simp only [dropTrailingComma, hno, if_false, ih2]

theorem dropTrailingComma_blank_tail (xs ws : List Char)
    (h : ∀ c ∈ ws, isJsSpace c = true) :
    dropTrailingComma (xs ++ ',' :: ws) = xs := by
  induction xs with
  | nil =>
    have hall : ws.all isJsSpace = true := by
      rw [List.all_eq_true]
      exact h
    simp [dropTrailingComma, hall]
  | cons x xs ih =>
    have hall : ¬ ((xs ++ ',' :: ws).all isJsSpace = true) := by
      intro hall
      rw [List.all_eq_true] at hall
      have := hall ',' (by simp)
      simp [comma_not_space] at this
    rw [List.cons_append, dropTrailingComma, if_neg (fun hx => hall hx.2), ih]

theorem placeLabel_data (g : GeoResult) :
    placeLabel g
      = String.mk (dropTrailingComma (g.name.data ++ ',' :: ' ' :: (countryText g).data)) := by
  have hc : (g.country_code.orElse fun _ => g.country).getD "" = countryText g := by
    unfold countryText
    cases g.country_code <;> cases g.country <;> rfl
  simp only [placeLabel, replaceTrailingComma, hc, String.data_append]
  congr 1
  simp

/-- C8 as stated fails: with a country code that is present but empty the label
is the bare name, not the name followed by a comma, a space and the code. -/
theorem placeLabel_name_comma_code_fails :
    ¬ (∀ (g : GeoResult) (c : String), g.country_code = some c →
        placeLabel g = g.name ++ ", " ++ c) := by
  intro h
  have := h ⟨"Kolkata", ⟨45, 1⟩, ⟨707, 3⟩, some "India", some "", none⟩ "" rfl
  revert this
  decide

/-- C8 (amended): the country text `C` is the country code when present, else
the country name when present, else empty.  The label is `<g.name>, <C>`
whenever `C` has a character that is not white space and does not end in a
comma followed only by white space; it is exactly `g.name` whenever `C` is
empty or all white space, in particular when code and name are both absent. -/
theorem placeLabel_amended (g : GeoResult) :
    (g.country_code = none → g.country = none → placeLabel g = g.name) ∧
    ((∀ c ∈ (countryText g).data, isJsSpace c = true) → placeLabel g = g.name) ∧
    ((∃ c ∈ (countryText g).data, isJsSpace c = false) →
      (∀ pre ws, (countryText g).data = pre ++ ',' :: ws →
        ∃ c ∈ ws, isJsSpace c = false) →
      placeLabel g = g.name ++ ", " ++ countryText g) := by
  have hblank : (∀ c ∈ (countryText g).data, isJsSpace c = true) →
      placeLabel g = g.name := by
    intro h
    rw [placeLabel_data]
    have := dropTrailingComma_blank_tail g.name.data (' ' :: (countryText g).data)
      (by
        intro c hc
        rcases List.mem_cons.mp hc with rfl | hc
        · decide
        · exact h c hc)
    rw [this]
  refine ⟨?_, hblank, ?_⟩
  · intro h1 h2
    apply hblank
    simp [countryText, h1, h2]
  · intro hns hnm
    rw [placeLabel_data]
    have h1 := dropTrailingComma_append (g.name.data ++ [',', ' ']) (countryText g).data hns
    have h2 := dropTrailingComma_of_no_match (countryText g).data hnm
    have h3 : g.name.data ++ ',' :: ' ' :: (countryText g).data
        = (g.name.data ++ [',', ' ']) ++ (countryText g).data := by simp
    rw [h3, h1, h2]
    apply String.ext
    simp [String.data_append]

/-- The label for a result with a country code, and for one with none. -/
theorem placeLabel_amended_witness :
    placeLabel kolkata = "Kolkata, IN" ∧
    placeLabel ⟨"Kolkata", ⟨45, 1⟩, ⟨707, 3⟩, none, none, none⟩ = "Kolkata" :=
  ⟨(placeLabel_amended kolkata).2.2 (by decide)
      (by
        intro pre ws h
        have hmem : ',' ∈ (countryText kolkata).data := by
          rw [h]
          simp
        exact absurd hmem (by decide)),
   (placeLabel_amended ⟨"Kolkata", ⟨45, 1⟩, ⟨707, 3⟩, none, none, none⟩).1 rfl rfl⟩

/-! ## What reaches the geocoder -/

theorem trim_ends (p : Char → Bool) (l : List Char)
    (hne : ((l.dropWhile p).reverse.dropWhile p).reverse ≠ []) :
    ∃ a b, (((l.dropWhile p).reverse.dropWhile p).reverse).head? = some a ∧
      (((l.dropWhile p).reverse.dropWhile p).reverse).getLast? = some b ∧
      p a = false ∧ p b = false := by
  have hsplit : l.dropWhile p
      = ((l.dropWhile p).reverse.dropWhile p).reverse
        ++ ((l.dropWhile p).reverse.takeWhile p).reverse := by
    rw [← List.reverse_append, List.takeWhile_append_dropWhile, List.reverse_reverse]
  have hhead : (l.dropWhile p).head?
      = (((l.dropWhile p).reverse.dropWhile p).reverse).head? := by
    conv_lhs => rw [hsplit]
    cases hcs : ((l.dropWhile p).reverse.dropWhile p).reverse with
    | nil => exact absurd hcs hne
    | cons a as => rfl
  have h1 := List.head?_dropWhile_not p l
  have h2 := List.head?_dropWhile_not p (l.dropWhile p).reverse
  rw [List.getLast?_reverse]
  rw [← hhead]
  have hne2 : (l.dropWhile p).reverse.dropWhile p ≠ [] := by
    intro h
    apply hne
    rw [h]
    rfl
  cases ha : (l.dropWhile p).head? with
  | none =>
    rw [hhead] at ha
    cases hcs : ((l.dropWhile p).reverse.dropWhile p).reverse with
    | nil => exact absurd hcs hne
    | cons a as => rw [hcs] at ha; cases ha
  | some a =>
    cases hb : ((l.dropWhile p).reverse.dropWhile p).head? with
    | none =>
      cases hcs : (l.dropWhile p).reverse.dropWhile p with
      | nil => exact absurd hcs hne2
      | cons b bs => rw [hcs] at hb; cases hb
    | some b =>
      rw [ha] at h1
      rw [hb] at h2
      exact ⟨a, b, rfl, rfl, h1, h2⟩

theorem jsTrim_trimmed (value : String) (h : jsTrim value ≠ "") :
    isTrimmed (jsTrim value) = true := by
  have hne : ((value.data.dropWhile isJsSpace).reverse.dropWhile isJsSpace).reverse ≠ [] := by
    intro hnil
    apply h
    simp only [jsTrim, hnil]
  obtain ⟨a, b, ha, hb, hpa, hpb⟩ := trim_ends isJsSpace value.data hne
  simp only [isTrimmed, jsTrim, ha, hb, hpa, hpb]
  rfl

theorem jsOr_value (value : String) : (jsOr (some value) (some "")).getD "" = value := by
  by_cases h : value = "" <;> simp [jsOr, truthy, h]

theorem loadCityWeather_geocode_requests (host : Host) (net : Net) (now name : String)
    (w : World) (n : String)
    (h : Request.geocode n ∈ (loadCityWeather host net now name w).requests) :
    Request.geocode n ∈ w.requests ∨ n = name := by
  revert h
  cases hg : net.geocoding name with
  | error e =>
    simp [loadCityWeather, loadCityWeatherTry, geocodeCity, hg, loadCityWeatherCatch,
      showStatus]
  | ok r =>
    obtain ⟨ok, results⟩ := r
    cases ok <;> rcases results with _ | _ | ⟨g, rest⟩ <;>
      try (simp [loadCityWeather, loadCityWeatherTry, geocodeCity, hg, loadCityWeatherCatch,
        showStatus]; done)
    cases hf : net.forecast g.latitude g.longitude with
    | error e =>
      simp [loadCityWeather, loadCityWeatherTry, geocodeCity, hg, fetchWeather, hf,
        loadCityWeatherCatch, showStatus]
    | ok fr =>
      cases hfok : fr.ok <;>
        simp [loadCityWeather, loadCityWeatherTry, geocodeCity, hg, fetchWeather, hf, hfok,
          loadCityWeatherCatch, showStatus, renderDaily_eq, renderCurrent]

theorem loadCityWeather_issues_geocode (host : Host) (net : Net) (now name : String)
    (w : World) :
    Request.geocode name ∈ (loadCityWeather host net now name w).requests := by
  cases hg : net.geocoding name with
  | error e =>
    simp [loadCityWeather, loadCityWeatherTry, geocodeCity, hg, loadCityWeatherCatch,
      showStatus]
  | ok r =>
    obtain ⟨ok, results⟩ := r
    cases ok <;> rcases results with _ | _ | ⟨g, rest⟩ <;>
      try (simp [loadCityWeather, loadCityWeatherTry, geocodeCity, hg, loadCityWeatherCatch,
        showStatus]; done)
    cases hf : net.forecast g.latitude g.longitude with
    | error e =>
      simp [loadCityWeather, loadCityWeatherTry, geocodeCity, hg, fetchWeather, hf,
        loadCityWeatherCatch, showStatus]
    | ok fr =>
      cases hfok : fr.ok <;>
        simp [loadCityWeather, loadCityWeatherTry, geocodeCity, hg, fetchWeather, hf, hfok,
          loadCityWeatherCatch, showStatus, renderDaily_eq, renderCurrent]

/-- C9 as stated fails: a chip bound to the empty name hands the empty name to
`loadCityWeather`, and a geocoding request for it is issued. -/
theorem chip_name_unchecked :
    ¬ (∀ (city n : String),
        Request.geocode n ∈ (chipClick demoHost demoNet "10:00" city blankWorld).requests →
        isTrimmed n = true) := by
  intro h
  have := h "" "" (by decide)
  revert this
  decide

/-- C9 (amended): the submit handler starts a search only when the trimmed
input is non-empty and passes that trimmed text, which is non-empty with no
white space at either end; the initial load passes `Kolkata`; a chip passes
its bound name unchanged and unchecked, so the geocoder receives exactly that
name, trimmed and non-empty only if the bound name is. -/
theorem handlers_query (host : Host) (net : Net) (now value city : String) (w : World) :
    (jsTrim value = "" → submitHandler host net now value w = w) ∧
    (jsTrim value ≠ "" →
      submitHandler host net now value w = loadCityWeather host net now (jsTrim value) w ∧
      isTrimmed (jsTrim value) = true) ∧
    (∀ n, Request.geocode n ∈ (submitHandler host net now value w).requests →
      Request.geocode n ∈ w.requests ∨ (n = jsTrim value ∧ isTrimmed n = true)) ∧
    (domContentLoaded host net now w = loadCityWeather host net now "Kolkata" w ∧
      isTrimmed "Kolkata" = true) ∧
    (chipClick host net now city w = loadCityWeather host net now city w ∧
      Request.geocode city ∈ (chipClick host net now city w).requests ∧
      ∀ n, Request.geocode n ∈ (chipClick host net now city w).requests →
        Request.geocode n ∈ w.requests ∨ n = city) := by
  refine ⟨?_, ?_, ?_, ⟨rfl, by decide⟩, ⟨rfl, ?_, ?_⟩⟩
  · intro h
    simp [submitHandler, jsOr_value, h]
  · intro h
    exact ⟨by simp [submitHandler, jsOr_value, h], jsTrim_trimmed value h⟩
  · intro n hn
    by_cases h : jsTrim value = ""
    · left
      simpa [submitHandler, jsOr_value, h] using hn
    · have hs : submitHandler host net now value w
          = loadCityWeather host net now (jsTrim value) w := by
        simp [submitHandler, jsOr_value, h]
      rw [hs] at hn
      rcases loadCityWeather_geocode_requests host net now _ w n hn with h1 | h1
      · exact Or.inl h1
      · right
        exact ⟨h1, by rw [h1]; exact jsTrim_trimmed value h⟩
  · exact loadCityWeather_issues_geocode host net now city w
  · intro n hn
    exact loadCityWeather_geocode_requests host net now city w n hn

/-- A padded input is searched for by its trimmed text; a blank input starts no
search. -/
theorem handlers_query_witness :
    submitHandler demoHost demoNet "10:00" "  Kolkata \n" blankWorld
      = loadCityWeather demoHost demoNet "10:00" "Kolkata" blankWorld ∧
    submitHandler demoHost demoNet "10:00" "   " blankWorld = blankWorld :=
  ⟨((handlers_query demoHost demoNet "10:00" "  Kolkata \n" "" blankWorld).2.1
      (by decide)).1,
   (handlers_query demoHost demoNet "10:00" "   " "" blankWorld).1 (by decide)⟩

end WeatherNow
